import Mathlib

/-!
Verification development for the webp-to-print-tiff pipeline
(`src/scripts/pipeline.py`), a single-image print-preparation pipeline:
aspect-ratio normalization, optional external AI upscaling, fixed-target
resampling with sharpening, and color-managed export.

The embedding below translates the Python source into Lean.  The in-memory
image (a Pillow `Image`) is modelled as a `Raster`: a width, a height, and a
total pixel function.  Pillow library primitives that the script calls
(`Image.crop`, `Image.resize`, `ImageFilter.UnsharpMask`, ICC profile
serialization) are modelled by their documented contracts, which is all the
script relies on; the script's own logic (crop policy, subprocess adapter,
pipeline control flow, file selection, save parameters) is translated
line by line.  Filesystem and process effects are modelled by an explicit
environment `Env` supplying the outcomes of the external calls `main` makes.
-/

set_option autoImplicit false

/-- Pixel of a 3-channel (RGB) image. -/
abbrev Pixel := Nat × Nat × Nat

/-- In-memory decoded image: width and height in pixels plus a pixel grid,
modelled as a total function (reads outside the nominal bounds are
unconstrained, as no claim depends on them). -/
structure Raster where
  width : Nat
  height : Nat
  px : Nat → Nat → Pixel

/-- Fixed print target width in pixels (`TARGET_W = 8504` in the source). -/
def TARGET_W : Nat := 8504

/-- Fixed print target height in pixels (`TARGET_H = 17008` in the source). -/
def TARGET_H : Nat := 17008

/-- Fixed print resolution (`DPI = 360` in the source). -/
def DPI : Nat := 360

/-- Real-ESRGAN model name (`MODEL` in the source). -/
def MODEL : String := "realesrgan-x4plus"

/-- Real-ESRGAN upscale factor (`SCALE = 4` in the source). -/
def SCALE : Nat := 4

/-- Real-ESRGAN tile size (`TILE = 256` in the source). -/
def TILE : Nat := 256

/-- Real-ESRGAN thread-partition descriptor (`THREADS = "1:2:2"`). -/
def THREADS : String := "1:2:2"

/-- Accepted input file extensions (`SUPPORTED_EXTS` in the source). -/
def SUPPORTED_EXTS : List String := [".webp", ".jpg", ".jpeg", ".png"]

/-- Python `str.lower()`, modelled character by character over the string's
character list (the extensions compared here are ASCII). -/
def pyLower (s : String) : String := String.mk (s.data.map Char.toLower)

/-- Python `str.strip()` with no argument: remove leading and trailing
whitespace, modelled over the string's character list. -/
def pyStrip (s : String) : String :=
  String.mk (((s.data.dropWhile Char.isWhitespace).reverse.dropWhile Char.isWhitespace).reverse)

/-- Pillow `Image.crop((left, upper, right, lower))`: the returned image has
size `(right - left, lower - upper)` and its pixel `(x, y)` is the source
pixel `(x + left, y + upper)`. -/
def Image.crop (im : Raster) (left upper right lower : Nat) : Raster :=
  { width := right - left
    height := lower - upper
    px := fun x y => im.px (x + left) (y + upper) }

/-- Pillow resampling kernels (`Image.Resampling`). -/
inductive Resampling where
  | nearest
  | box
  | bilinear
  | hamming
  | bicubic
  | lanczos
  deriving DecidableEq

/-- Modelled from the spec: Pillow `Image.resize(size, resample)` (library
code, not part of this repository).  The contract the script relies on is
that the result has exactly the requested dimensions; the interpolation
kernel itself is external, so pixel content is modelled by plain index
sampling and the kernel argument is recorded but not interpreted. -/
def Image.resize (im : Raster) (size : Nat × Nat) (resample : Resampling) : Raster :=
  { width := size.1
    height := size.2
    px := fun x y => im.px (x * im.width / size.1) (y * im.height / size.2) }

/-- Parameters of Pillow `ImageFilter.UnsharpMask(radius, percent, threshold)`. -/
structure UnsharpMask where
  radius : Nat
  percent : Nat
  threshold : Nat

/-- Modelled from the spec: Pillow `Image.filter` with an unsharp mask
(library code, not part of this repository).  It is a dimension-preserving
pixel filter; the convolution itself is external and no claim depends on
the filtered pixel values, so they are left unchanged here. -/
def Image.filter (im : Raster) (f : UnsharpMask) : Raster :=
  { width := im.width, height := im.height, px := im.px }

/-- Modelled from the spec: `srgb_icc_bytes` serializes a freshly created
standard sRGB ICC profile via Pillow `ImageCms` (library code, not part of
this repository).  It is a fixed non-empty byte blob, generated per run and
independent of the input; the concrete bytes stand in for the lcms
serialization. -/
def srgb_icc_bytes : List Nat := [115, 82, 71, 66]

/-- Translation of `crop_to_1_to_2` from `src/scripts/pipeline.py`:
center-crop to an exact 1:2 (width:height) aspect ratio; if the raster is
too narrow, crop height instead; if even that is impossible without
upscaling, return the input unchanged. -/
def crop_to_1_to_2 (im : Raster) : Raster :=
  let w := im.width
  let h := im.height
  let target_w := h / 2
  if w = target_w then im
  else if w > target_w then
    let left := (w - target_w) / 2
    Image.crop im left 0 (left + target_w) h
  else
    let target_h := w * 2
    if target_h > h then im
    else
      let top := (h - target_h) / 2
      Image.crop im 0 top w (top + target_h)

/-- Outcome of launching the external upscaler process: either the process
ran to completion with an exit status (negative for signal termination, as
in Python `subprocess`), or the invocation itself raised (missing binary,
I/O failure, ...). -/
inductive ProcOutcome where
  | exited (code : Int)
  | raised (msg : String)
  deriving DecidableEq

/-- The fixed argument vector `cmd` built by `run_realesrgan`. -/
def realesrgan_cmd (realesrgan_bin inp out : String) : List String :=
  [realesrgan_bin,
   "-i", inp,
   "-o", out,
   "-n", MODEL,
   "-s", toString SCALE,
   "-t", toString TILE,
   "-j", THREADS,
   "-f", "png"]

/-- Translation of `run_realesrgan`: `subprocess.run(cmd, check=True)`
returns normally exactly when the process exits with status zero; any other
exit status raises `CalledProcessError` and any invocation error raises as
well, all caught by the bare `except` clause, which returns `False`. -/
def run_realesrgan (runProcess : List String → ProcOutcome)
    (realesrgan_bin inp out : String) : Bool :=
  match runProcess (realesrgan_cmd realesrgan_bin inp out) with
  | ProcOutcome.exited code => code == 0
  | ProcOutcome.raised _ => false

/-- External-world inputs consumed by `main`: the `REALESRGAN_BIN`
environment variable (`none` when unset), the `Path(...).exists()` oracle,
the subprocess launcher, and the decoded contents of the upscaled file the
external tool produced. -/
structure Env where
  realesrgan_env : Option String
  pathExists : String → Bool
  runProcess : List String → ProcOutcome
  readUpscaled : Raster

/-- Result of the upscale section of `main`: the `used_ai` flag and whether
`run_realesrgan` was invoked at all. -/
structure UpscaleResult where
  used_ai : Bool
  invoked : Bool

/-- Translation of the upscale section of `main` (lines 102 to 111):
`realesrgan_bin = os.environ.get("REALESRGAN_BIN", "").strip()`, and
`run_realesrgan` is invoked only when that string is non-empty (truthy) and
`Path(realesrgan_bin).exists()`; otherwise `used_ai` stays `False`. -/
def mainUpscaleStep (env : Env) (cropped_path upscaled_path : String) : UpscaleResult :=
  let realesrgan_bin := pyStrip (env.realesrgan_env.getD "")
  if realesrgan_bin ≠ "" ∧ env.pathExists realesrgan_bin = true then
    { used_ai := run_realesrgan env.runProcess realesrgan_bin cropped_path upscaled_path
      invoked := true }
  else
    { used_ai := false, invoked := false }

/-- Arguments of the `final.save(out_tiff_path, format="TIFF", ...)` call. -/
structure TiffSaveCall where
  image : Raster
  fmt : String
  compression : String
  dpi : Nat × Nat
  icc_profile : List Nat

/-- Arguments of the `preview.save(preview_path, format="JPEG", ...)` call. -/
structure JpegSaveCall where
  image : Raster
  fmt : String
  quality : Nat
  optimize : Bool

/-- Observable result of one run of the raster pipeline in `main`: the
intermediate rasters, the upscale decision, the resampling kernels passed
to the two `resize` calls, and the two save calls with their arguments. -/
structure PipelineResult where
  im_cropped : Raster
  invoked : Bool
  used_ai : Bool
  src_for_final : Raster
  finish_kernel : Resampling
  final : Raster
  tiff_save : TiffSaveCall
  preview_kernel : Resampling
  preview : Raster
  jpeg_save : JpegSaveCall

/-- Translation of the raster-processing part of `main` (after decoding the
chosen input file): crop to 1:2, optionally AI-upscale, fall back to the
cropped raster when `used_ai` is false, resize to the fixed print target
with Lanczos, sharpen with `UnsharpMask(radius=2, percent=140,
threshold=3)`, save the TIFF (LZW, 360 dpi, sRGB ICC) and the quarter-scale
JPEG preview (quality 92, optimized). -/
def mainPipeline (env : Env) (im : Raster) : PipelineResult :=
  let im_cropped := crop_to_1_to_2 im
  let up := mainUpscaleStep env "work/input_cropped.png" "work/upscaled.png"
  let src_for_final := if up.used_ai then env.readUpscaled else im_cropped
  let final0 := Image.resize src_for_final (TARGET_W, TARGET_H) Resampling.lanczos
  let final := Image.filter final0 { radius := 2, percent := 140, threshold := 3 }
  let preview := Image.resize final (2126, 4252) Resampling.lanczos
  { im_cropped := im_cropped
    invoked := up.invoked
    used_ai := up.used_ai
    src_for_final := src_for_final
    finish_kernel := Resampling.lanczos
    final := final
    tiff_save :=
      { image := final
        fmt := "TIFF"
        compression := "tiff_lzw"
        dpi := (DPI, DPI)
        icc_profile := srgb_icc_bytes }
    preview_kernel := Resampling.lanczos
    preview := preview
    jpeg_save :=
      { image := preview
        fmt := "JPEG"
        quality := 92
        optimize := true } }

/-- Directory entry as observed by `pick_input_file`: `Path.suffix` (the
extension including the leading dot, possibly empty), `Path.is_file()`, and
`Path.stat().st_mtime`. -/
structure FileEntry where
  name : String
  suffix : String
  isFile : Bool
  mtime : Nat
  deriving DecidableEq

/-- The `candidates` list built by the loop in `pick_input_file`: regular
files whose lowercased extension is among `SUPPORTED_EXTS`. -/
def eligibleFiles (entries : List FileEntry) : List FileEntry :=
  entries.filter (fun p => p.isFile && SUPPORTED_EXTS.contains (pyLower p.suffix))

/-- Python `max(candidates, key=...)` over `best :: rest`: scan the rest,
replacing the current best only on a strictly larger key, so the first
maximal element wins ties. -/
def maxByMtime (best : FileEntry) : List FileEntry → FileEntry
  | [] => best
  | x :: xs => maxByMtime (if best.mtime < x.mtime then x else best) xs

/-- Translation of `pick_input_file`: the input directory is `none` when
`INPUT_DIR.exists()` is false, otherwise the list of its entries.  A
missing directory or an empty candidate list raises `FileNotFoundError`
(modelled as `Except.error` with the source's message); otherwise the
most-recently-modified candidate is returned. -/
def pick_input_file : Option (List FileEntry) → Except String FileEntry
  | none => Except.error "Missing folder: input/ (create it and upload one image inside)"
  | some entries =>
    match eligibleFiles entries with
    | [] => Except.error "No input image found in input/. Upload one .jpg/.jpeg/.png/.webp"
    | c :: cs => Except.ok (maxByMtime c cs)

/-- Concrete raster for the spec's end-to-end scenario A (already 1:2). -/
def rasterA : Raster := { width := 4000, height := 8000, px := fun _ _ => (0, 0, 0) }

/-- Concrete raster for the spec's end-to-end scenario B (too wide). -/
def rasterB : Raster := { width := 5000, height := 8000, px := fun _ _ => (0, 0, 0) }

/-- Concrete raster for the spec's end-to-end scenario C (too narrow). -/
def rasterC : Raster := { width := 3000, height := 8000, px := fun _ _ => (0, 0, 0) }

/-- Degenerate 1 × 1 raster: `target_w = 1 / 2 = 0`, so the width branch of
`crop_to_1_to_2` crops it to width 0. -/
def rasterTiny : Raster := { width := 1, height := 1, px := fun _ _ => (0, 0, 0) }

/-- Concrete environment with no upscaler configured. -/
def envNone : Env :=
  { realesrgan_env := none
    pathExists := fun _ => false
    runProcess := fun _ => ProcOutcome.raised "missing binary"
    readUpscaled := rasterA }

/-- Concrete environment with a configured tool that exits non-zero. -/
def envFailing : Env :=
  { realesrgan_env := some "/opt/realesrgan"
    pathExists := fun _ => true
    runProcess := fun _ => ProcOutcome.exited 1
    readUpscaled := rasterA }

/-- Concrete directory contents for exercising `pick_input_file`: two
eligible images (one with an upper-case extension) and one `.txt` file that
is newer than both but not eligible. -/
def fileOld : FileEntry := { name := "a.jpg", suffix := ".jpg", isFile := true, mtime := 5 }

def fileNew : FileEntry := { name := "b.PNG", suffix := ".PNG", isFile := true, mtime := 9 }

def fileTxt : FileEntry := { name := "c.txt", suffix := ".txt", isFile := true, mtime := 99 }

def inputDirEx : Option (List FileEntry) := some [fileOld, fileNew, fileTxt]

/-- C1: for a too-wide raster (`w > h // 2`), `crop_to_1_to_2` crops width
only: the result is `h // 2` wide and `h` tall, equal to the horizontally
centered window with left offset `(w - h // 2) / 2`, and the discarded
margins differ by at most one pixel with the larger margin on the right. -/
theorem crop_to_1_to_2_wide (im : Raster)
    (hw : 0 < im.width) (hh : 0 < im.height)
    (hgt : im.width > im.height / 2) :
    let t := im.height / 2
    let left := (im.width - t) / 2
    let out := crop_to_1_to_2 im
    out.width = t ∧
    out.height = im.height ∧
    (∀ x y, out.px x y = im.px (x + left) y) ∧
    left ≤ im.width - (left + t) ∧
    im.width - (left + t) ≤ left + 1 := by
  intro t left out
  have hne : im.width ≠ im.height / 2 := by omega
  have hout : out = Image.crop im left 0 (left + t) im.height := by
    show crop_to_1_to_2 im = _
    simp only [crop_to_1_to_2]
    rw [if_neg hne, if_pos hgt]
  rw [hout]
  refine ⟨by simp [Image.crop], by simp [Image.crop], fun x y => rfl, by omega, by omega⟩

/-- Witness for C1 at the spec's scenario B input, a 5000 × 8000 raster. -/
theorem crop_to_1_to_2_wide_witness :
    (crop_to_1_to_2 rasterB).width = 4000 ∧
    (crop_to_1_to_2 rasterB).height = 8000 ∧
    500 ≤ rasterB.width - (500 + 4000) ∧
    rasterB.width - (500 + 4000) ≤ 500 + 1 :=
  have h := crop_to_1_to_2_wide rasterB (by decide) (by decide) (by decide)
  ⟨h.1, h.2.1, h.2.2.2.1, h.2.2.2.2⟩

/-- C2: for a too-narrow raster (`w < h // 2`), `crop_to_1_to_2` returns the
input unchanged when `w * 2 > h`, and otherwise crops height only: the
result is `w` wide and `w * 2` tall, equal to the vertically centered
window with top offset `(h - w * 2) / 2`. -/
theorem crop_to_1_to_2_narrow (im : Raster)
    (hw : 0 < im.width) (hh : 0 < im.height)
    (hlt : im.width < im.height / 2) :
    let top := (im.height - im.width * 2) / 2
    let out := crop_to_1_to_2 im
    (im.width * 2 > im.height → out = im) ∧
    (im.width * 2 ≤ im.height →
      out.width = im.width ∧
      out.height = im.width * 2 ∧
      (∀ x y, out.px x y = im.px x (y + top))) := by
  intro top out
  have hne : im.width ≠ im.height / 2 := by omega
  have hngt : ¬ im.width > im.height / 2 := by omega
  have hle : ¬ im.width * 2 > im.height := by omega
  have hout : out = Image.crop im 0 top im.width (top + im.width * 2) := by
    show crop_to_1_to_2 im = _
    simp only [crop_to_1_to_2]
    rw [if_neg hne, if_neg hngt, if_neg hle]
  refine ⟨fun hc => absurd hc hle, fun _ => ?_⟩
  rw [hout]
  exact ⟨by simp [Image.crop], by simp [Image.crop], fun x y => rfl⟩

/-- Witness for C2 at the spec's scenario C input, a 3000 × 8000 raster. -/
theorem crop_to_1_to_2_narrow_witness :
    (crop_to_1_to_2 rasterC).width = 3000 ∧
    (crop_to_1_to_2 rasterC).height = 6000 :=
  have h := crop_to_1_to_2_narrow rasterC (by decide) (by decide) (by decide)
  ⟨(h.2 (by decide)).1, (h.2 (by decide)).2.1⟩

/-- Helper: a raster whose width already equals `height // 2` is returned
unchanged by `crop_to_1_to_2` (the first branch of the function). -/
theorem crop_to_1_to_2_eq_of_ratio (im : Raster)
    (h : im.width = im.height / 2) : crop_to_1_to_2 im = im := by
  simp only [crop_to_1_to_2]
  rw [if_pos h]

/-- Helper: the output of `crop_to_1_to_2` either satisfies the exact 1:2
check (`width = height / 2`) or is the input itself. -/
theorem crop_to_1_to_2_shape (im : Raster) :
    (crop_to_1_to_2 im).width = (crop_to_1_to_2 im).height / 2 ∨
    crop_to_1_to_2 im = im := by
  simp only [crop_to_1_to_2]
  split
  · right; rfl
  · split
    · left; simp only [Image.crop]; omega
    · split
      · right; rfl
      · left; simp only [Image.crop]; omega

/-- C6: normalization is idempotent.  A raster whose width already equals
`height // 2` is returned unchanged (the same raster), and applying
`crop_to_1_to_2` to its own output yields the output unchanged. -/
theorem crop_to_1_to_2_idempotent (im : Raster) :
    (im.width = im.height / 2 → crop_to_1_to_2 im = im) ∧
    crop_to_1_to_2 (crop_to_1_to_2 im) = crop_to_1_to_2 im := by
  refine ⟨crop_to_1_to_2_eq_of_ratio im, ?_⟩
  rcases crop_to_1_to_2_shape im with h | h
  · exact crop_to_1_to_2_eq_of_ratio _ h
  · rw [h]; exact h

/-- Witness for C6 at the spec's scenario A input, a 4000 × 8000 raster. -/
theorem crop_to_1_to_2_idempotent_witness :
    crop_to_1_to_2 rasterA = rasterA ∧
    crop_to_1_to_2 (crop_to_1_to_2 rasterA) = crop_to_1_to_2 rasterA :=
  ⟨(crop_to_1_to_2_idempotent rasterA).1 (by decide),
   (crop_to_1_to_2_idempotent rasterA).2⟩

/-- C9 counterexample: the 1 × 1 raster has positive width and height, yet
`crop_to_1_to_2` returns a raster of width 0. -/
theorem crop_to_1_to_2_positive_counterexample :
    0 < rasterTiny.width ∧ 0 < rasterTiny.height ∧
    ¬ 0 < (crop_to_1_to_2 rasterTiny).width := by
  refine ⟨by decide, by decide, ?_⟩
  have h : (crop_to_1_to_2 rasterTiny).width = 0 := by
    simp only [crop_to_1_to_2, rasterTiny]
    norm_num [Image.crop]
  omega

/-- C9 amended: for every raster with positive width and height at least 2,
`crop_to_1_to_2` returns a raster with positive width and height. -/
theorem crop_to_1_to_2_positive (im : Raster)
    (hw : 0 < im.width) (hh : 2 ≤ im.height) :
    0 < (crop_to_1_to_2 im).width ∧ 0 < (crop_to_1_to_2 im).height := by
  simp only [crop_to_1_to_2]
  split
  · exact ⟨hw, by omega⟩
  · split
    · constructor <;> simp only [Image.crop] <;> omega
    · split
      · exact ⟨hw, by omega⟩
      · constructor <;> simp only [Image.crop] <;> omega

/-- Witness for the amended C9 at the scenario B input. -/
theorem crop_to_1_to_2_positive_witness :
    0 < (crop_to_1_to_2 rasterB).width ∧ 0 < (crop_to_1_to_2 rasterB).height :=
  crop_to_1_to_2_positive rasterB (by decide) (by decide)

/-- C10: for every raster with positive width and height, the output of
`crop_to_1_to_2` satisfies `width = height / 2` exactly; in particular the
"cannot crop" fallback branch is unreachable, because `w < h / 2` forces
`w * 2 < h`. -/
theorem crop_to_1_to_2_ratio_invariant (im : Raster)
    (hw : 0 < im.width) (hh : 0 < im.height) :
    (crop_to_1_to_2 im).width = (crop_to_1_to_2 im).height / 2 ∧
    (im.width < im.height / 2 → im.width * 2 < im.height) := by
  refine ⟨?_, by omega⟩
  rcases crop_to_1_to_2_shape im with h | h
  · exact h
  · rw [h]
    simp only [crop_to_1_to_2] at h
    by_cases h1 : im.width = im.height / 2
    · exact h1
    · by_cases h2 : im.width > im.height / 2
      · exfalso
        rw [if_neg h1, if_pos h2] at h
        have := congrArg Raster.width h
        simp [Image.crop] at this
        omega
      · have hle : ¬ im.width * 2 > im.height := by omega
        rw [if_neg h1, if_neg h2, if_neg hle] at h
        have := congrArg Raster.height h
        simp only [Image.crop] at this
        omega

/-- Witness for C10 at the spec's scenario C input. -/
theorem crop_to_1_to_2_ratio_invariant_witness :
    (crop_to_1_to_2 rasterC).width = (crop_to_1_to_2 rasterC).height / 2 ∧
    (rasterC.width < rasterC.height / 2 → rasterC.width * 2 < rasterC.height) :=
  crop_to_1_to_2_ratio_invariant rasterC (by decide) (by decide)

/-- Helper: `run_realesrgan` reports success exactly when the subprocess
exits with status zero. -/
theorem run_realesrgan_eq_true_iff (runProcess : List String → ProcOutcome)
    (b i o : String) :
    run_realesrgan runProcess b i o = true ↔
      runProcess (realesrgan_cmd b i o) = ProcOutcome.exited 0 := by
  unfold run_realesrgan
  cases h : runProcess (realesrgan_cmd b i o) with
  | exited code => simp
  | raised msg => simp

/-- C4: the adapter's `used_ai` is true iff the tool was invoked and the
subprocess exited with status zero; the tool is invoked iff the configured
path is non-empty and exists, so when it is unconfigured or missing,
`invoked` and `used_ai` are both false, and every non-zero exit or
invocation error yields `used_ai = false` (the adapter is a total `Bool`
function, so no exception propagates). -/
theorem upscale_adapter_spec (env : Env) (cropped_path upscaled_path : String) :
    ((mainUpscaleStep env cropped_path upscaled_path).invoked = true ↔
      pyStrip (env.realesrgan_env.getD "") ≠ "" ∧
      env.pathExists (pyStrip (env.realesrgan_env.getD "")) = true) ∧
    ((mainUpscaleStep env cropped_path upscaled_path).used_ai = true ↔
      (mainUpscaleStep env cropped_path upscaled_path).invoked = true ∧
      env.runProcess
          (realesrgan_cmd (pyStrip (env.realesrgan_env.getD "")) cropped_path upscaled_path) =
        ProcOutcome.exited 0) := by
  constructor
  · simp only [mainUpscaleStep]
    split
    next hc => exact iff_of_true rfl hc
    next hc => exact iff_of_false (by simp) hc
  · simp only [mainUpscaleStep]
    split
    next hc => simp [run_realesrgan_eq_true_iff]
    next hc => simp

/-- C3: the Resample & Finish stage always produces a raster of exactly
`TARGET_W` by `TARGET_H` (8504 × 17008) pixels, for every input raster of
positive size and every environment (so whether or not AI upscaling was
used). -/
theorem finish_dimensions (env : Env) (im : Raster)
    (hw : 0 < im.width) (hh : 0 < im.height) :
    (mainPipeline env im).final.width = TARGET_W ∧
    (mainPipeline env im).final.height = TARGET_H ∧
    TARGET_W = 8504 ∧ TARGET_H = 17008 :=
  ⟨rfl, rfl, rfl, rfl⟩

/-- Witness for C3 with no upscaler configured, at the scenario A input. -/
theorem finish_dimensions_witness :
    (mainPipeline envNone rasterA).final.width = TARGET_W ∧
    (mainPipeline envNone rasterA).final.height = TARGET_H ∧
    TARGET_W = 8504 ∧ TARGET_H = 17008 :=
  finish_dimensions envNone rasterA (by decide) (by decide)

/-- C5: when `used_ai` is false (upscaler missing or failed), the pipeline
still runs to completion: the source of the final resize is exactly the
cropped raster, and the final raster has the fixed target dimensions. -/
theorem fallback_uses_cropped (env : Env) (im : Raster)
    (h : (mainPipeline env im).used_ai = false) :
    (mainPipeline env im).src_for_final = crop_to_1_to_2 im ∧
    (mainPipeline env im).final.width = TARGET_W ∧
    (mainPipeline env im).final.height = TARGET_H := by
  refine ⟨?_, rfl, rfl⟩
  have h' : (mainUpscaleStep env "work/input_cropped.png" "work/upscaled.png").used_ai
      = false := h
  show (if (mainUpscaleStep env "work/input_cropped.png" "work/upscaled.png").used_ai
      then env.readUpscaled else crop_to_1_to_2 im) = crop_to_1_to_2 im
  rw [h']
  simp

/-- Witness for C5 with a configured upscaler that exits non-zero, at the
scenario A input. -/
theorem fallback_uses_cropped_witness :
    (mainPipeline envFailing rasterA).used_ai = false ∧
    (mainPipeline envFailing rasterA).src_for_final = crop_to_1_to_2 rasterA ∧
    (mainPipeline envFailing rasterA).final.width = TARGET_W :=
  have h := fallback_uses_cropped envFailing rasterA (by decide)
  ⟨by decide, h.1, h.2.1⟩

/-- C8: the exporter saves the TIFF with LZW compression, 360 dpi on both
axes, and the freshly generated non-empty sRGB ICC blob, and saves the
preview as a quality-92 optimized JPEG of exactly 2126 × 4252 (one quarter
of each target axis), resampled with the same Lanczos kernel as the Finish
Engine. -/
theorem exporter_parameters (env : Env) (im : Raster) :
    (mainPipeline env im).tiff_save.fmt = "TIFF" ∧
    (mainPipeline env im).tiff_save.compression = "tiff_lzw" ∧
    (mainPipeline env im).tiff_save.dpi = (360, 360) ∧
    (mainPipeline env im).tiff_save.icc_profile = srgb_icc_bytes ∧
    srgb_icc_bytes ≠ [] ∧
    (mainPipeline env im).jpeg_save.fmt = "JPEG" ∧
    (mainPipeline env im).jpeg_save.quality = 92 ∧
    (mainPipeline env im).jpeg_save.optimize = true ∧
    (mainPipeline env im).jpeg_save.image.width = 2126 ∧
    (mainPipeline env im).jpeg_save.image.height = 4252 ∧
    2126 * 4 = TARGET_W ∧
    4252 * 4 = TARGET_H ∧
    (mainPipeline env im).preview_kernel = (mainPipeline env im).finish_kernel ∧
    (mainPipeline env im).finish_kernel = Resampling.lanczos :=
  ⟨rfl, rfl, rfl, rfl, by decide, rfl, rfl, rfl, rfl, rfl, rfl, rfl, rfl, rfl⟩

/-- Helper: the element returned by `maxByMtime` is the seed or a member of
the scanned list. -/
theorem maxByMtime_mem (best : FileEntry) (l : List FileEntry) :
    maxByMtime best l = best ∨ maxByMtime best l ∈ l := by
  induction l generalizing best with
  | nil => left; rfl
  | cons x xs ih =>
    simp only [maxByMtime]
    rcases ih (if best.mtime < x.mtime then x else best) with h | h
    · rw [h]
      by_cases hc : best.mtime < x.mtime
      · rw [if_pos hc]; right; exact List.mem_cons_self x xs
      · rw [if_neg hc]; left; rfl
    · right; exact List.mem_cons_of_mem x h

/-- Helper: the element returned by `maxByMtime` has the largest mtime among
the seed and the scanned list. -/
theorem maxByMtime_le (best : FileEntry) (l : List FileEntry) :
    best.mtime ≤ (maxByMtime best l).mtime ∧
    ∀ g ∈ l, g.mtime ≤ (maxByMtime best l).mtime := by
  induction l generalizing best with
  | nil => exact ⟨le_refl _, by simp⟩
  | cons x xs ih =>
    simp only [maxByMtime]
    have h := ih (if best.mtime < x.mtime then x else best)
    constructor
    · refine le_trans ?_ h.1
      split <;> omega
    · intro g hg
      rcases List.mem_cons.mp hg with rfl | hg'
      · refine le_trans ?_ h.1
        split <;> omega
      · exact h.2 g hg'

/-- C7: `pick_input_file` raises the "not found" error exactly when the
input directory is absent or holds no file with an accepted extension
(case-insensitively); otherwise it returns an eligible file whose
modification time is maximal among the eligible files. -/
theorem pick_input_file_spec (input_dir : Option (List FileEntry)) :
    ((∃ msg, pick_input_file input_dir = Except.error msg) ↔
      input_dir = none ∨ ∃ es, input_dir = some es ∧ eligibleFiles es = []) ∧
    (∀ es f, input_dir = some es → pick_input_file input_dir = Except.ok f →
      f ∈ eligibleFiles es ∧ ∀ g ∈ eligibleFiles es, g.mtime ≤ f.mtime) := by
  cases input_dir with
  | none =>
    constructor
    · constructor
      · intro _; left; rfl
      · intro _; exact ⟨_, rfl⟩
    · intro es f hes
      exact absurd hes (by simp)
  | some entries =>
    constructor
    · constructor
      · rintro ⟨msg, hmsg⟩
        right
        refine ⟨entries, rfl, ?_⟩
        cases he : eligibleFiles entries with
        | nil => rfl
        | cons c cs =>
          simp only [pick_input_file] at hmsg
          rw [he] at hmsg
          exact Except.noConfusion hmsg
      · rintro (h | ⟨es, hes, he⟩)
        · exact absurd h (by simp)
        · injection hes with h1
          subst h1
          refine ⟨"No input image found in input/. Upload one .jpg/.jpeg/.png/.webp", ?_⟩
          simp only [pick_input_file]
          rw [he]
    · intro es f hes hok
      injection hes with h1
      subst h1
      cases he : eligibleFiles entries with
      | nil =>
        exfalso
        simp only [pick_input_file] at hok
        rw [he] at hok
        exact Except.noConfusion hok
      | cons c cs =>
        simp only [pick_input_file] at hok
        rw [he] at hok
        have hf : maxByMtime c cs = f := by
          injection hok
        subst hf
        constructor
        · rcases maxByMtime_mem c cs with h | h
          · rw [h]; exact List.mem_cons_self c cs
          · exact List.mem_cons_of_mem c h
        · intro g hg
          rcases List.mem_cons.mp hg with h | hg'
          · rw [h]; exact (maxByMtime_le c cs).1
          · exact (maxByMtime_le c cs).2 g hg'

/-- Witness for C7: among `a.jpg` (mtime 5), `b.PNG` (mtime 9) and the
newer but ineligible `c.txt` (mtime 99), the picker returns `b.PNG`. -/
theorem pick_input_file_spec_witness :
    pick_input_file inputDirEx = Except.ok fileNew ∧
    fileNew ∈ eligibleFiles [fileOld, fileNew, fileTxt] :=
  ⟨rfl,
   ((pick_input_file_spec inputDirEx).2 [fileOld, fileNew, fileTxt] fileNew rfl rfl).1⟩
